import Mathlib

/-!
Verification of the powertrain-simulation and audio-synthesis core of the
ESP32 8x8 crawler controller firmware.

The definitions below are shallow embeddings of the C sources:
  * `src/main/tuning.c` — vehicle dynamics simulator (realistic throttle),
  * `src/main/engine_sound.c` — RPM controller, transmission model,
    crossfade computation, mixer, profile switching, config loading,
  * `src/main/sounds/sound_profiles.c` — profile registry.

C `int` arithmetic is modelled with `Int` and truncating division
(`Int.tdiv`); stores into `uint16_t`/`uint32_t` variables are modelled with
explicit reduction modulo 2^16 / 2^32 where the stored value can leave the
range of the type.
-/

namespace Crawler

/-! ### Vehicle dynamics simulator (src/main/tuning.c) -/

/-- ESC tuning fields used by the realistic-throttle simulation
(`esc_tuning_t` in config.h).  Both fields are `uint8_t` in C with a
documented range of 0–100. -/
structure EscTuning where
  coast_rate : Int
  brake_force : Int
deriving DecidableEq

/-- Documented value range of the ESC tuning fields (config.h: both fields
are commented as 0–100). -/
def ValidEsc (esc : EscTuning) : Prop :=
  0 ≤ esc.coast_rate ∧ esc.coast_rate ≤ 100 ∧
  0 ≤ esc.brake_force ∧ esc.brake_force ≤ 100

instance (esc : EscTuning) : Decidable (ValidEsc esc) := by
  unfold ValidEsc; infer_instance

/-- Dynamics state: the four file-level statics of tuning.c
(`simulated_velocity`, `last_direction`, `throttle_released`,
`currently_braking`). -/
structure DynState where
  simulated_velocity : Int
  last_direction : Int
  throttle_released : Bool
  currently_braking : Bool
deriving DecidableEq

/-- Coast deceleration, tuning.c lines 322–323:
`coast_decel = 50 - (coast_rate * 45) / 100`, clamped below at 5. -/
def coastDecel (esc : EscTuning) : Int :=
  let c := 50 - Int.tdiv (esc.coast_rate * 45) 100
  if c < 5 then 5 else c

/-- Brake strength, tuning.c line 326: `5 + (brake_force * 195) / 100`. -/
def brakeStrength (esc : EscTuning) : Int :=
  5 + Int.tdiv (esc.brake_force * 195) 100

/-- Acceleration rate, tuning.c line 329: `20 + (100 - coast_rate) / 5`. -/
def accelRate (esc : EscTuning) : Int :=
  20 + Int.tdiv (100 - esc.coast_rate) 5

/-- Branch structure of `tuning_apply_realistic_throttle`
(tuning.c lines 317–427), as a pure state transformer: case 1 neutral
coast, case 2 active braking (including braking while stopped against the
last direction), case 3 acceleration / coast toward the throttle target
with the direction-change lockout.  The final `last_direction` reset of
the C function is applied on top by `applyRealisticThrottle`. -/
def applyRealisticThrottleMid (esc : EscTuning) (t : Int) (s : DynState) : DynState :=
  let coast_decel := coastDecel esc
  let brake_strength := brakeStrength esc
  let accel_rate := accelRate esc
  let v := s.simulated_velocity
  let ld := s.last_direction
  let rel := if t = 0 then true else s.throttle_released
  if t = 0 then
      if 0 < v then
        { simulated_velocity := if v - coast_decel < 0 then 0 else v - coast_decel,
          last_direction := ld, throttle_released := rel, currently_braking := false }
      else if v < 0 then
        { simulated_velocity := if 0 < v + coast_decel then 0 else v + coast_decel,
          last_direction := ld, throttle_released := rel, currently_braking := false }
      else
        { simulated_velocity := v, last_direction := ld, throttle_released := rel,
          currently_braking := false }
    else if (0 < t ∧ v < 0) ∨ (t < 0 ∧ 0 < v) ∨
            (v = 0 ∧ t < 0 ∧ ld = 1) ∨ (v = 0 ∧ 0 < t ∧ ld = -1) then
      { simulated_velocity :=
          if 0 < v then (if v - brake_strength < 0 then 0 else v - brake_strength)
          else if v < 0 then (if 0 < v + brake_strength then 0 else v + brake_strength)
          else v,
        last_direction := ld, throttle_released := false, currently_braking := true }
    else if 0 < t then
      if 0 < v ∨ (v = 0 ∧ (rel = true ∨ ld ≠ -1)) then
        if v < t then
          { simulated_velocity := if t < v + accel_rate then t else v + accel_rate,
            last_direction := 1, throttle_released := false, currently_braking := false }
        else if t < v then
          { simulated_velocity := if v - coast_decel < t then t else v - coast_decel,
            last_direction := ld, throttle_released := rel, currently_braking := false }
        else
          { simulated_velocity := v, last_direction := ld, throttle_released := rel,
            currently_braking := false }
      else
        { simulated_velocity := v, last_direction := ld, throttle_released := rel,
          currently_braking := false }
    else
      if v < 0 ∨ (v = 0 ∧ (rel = true ∨ ld ≠ 1)) then
        if t < v then
          { simulated_velocity := if v - accel_rate < t then t else v - accel_rate,
            last_direction := -1, throttle_released := false, currently_braking := false }
        else if v < t then
          { simulated_velocity := if t < v + coast_decel then t else v + coast_decel,
            last_direction := ld, throttle_released := rel, currently_braking := false }
        else
          { simulated_velocity := v, last_direction := ld, throttle_released := rel,
            currently_braking := false }
      else
        { simulated_velocity := v, last_direction := ld, throttle_released := rel,
          currently_braking := false }

/-- One control tick of `tuning_apply_realistic_throttle` (tuning.c lines
317–435): the case analysis of `applyRealisticThrottleMid` followed by
the final reset of the direction tracker when the vehicle was stopped at
entry (`stopped` is computed before the branches mutate the velocity) and
the throttle is released after the branches ran (tuning.c lines
429–432). -/
def applyRealisticThrottle (esc : EscTuning) (t : Int) (s : DynState) : DynState :=
  let mid := applyRealisticThrottleMid esc t s
  if s.simulated_velocity = 0 ∧ mid.throttle_released = true then
    { mid with last_direction := 0 }
  else mid

/-- `tuning_reset_realistic_throttle` (tuning.c lines 437–442): sets
`simulated_velocity = 0`, `last_direction = 0`, `throttle_released = true`.
The `currently_braking` static is not assigned by this function. -/
def resetRealisticThrottle (s : DynState) : DynState :=
  { s with simulated_velocity := 0, last_direction := 0, throttle_released := true }

/-- Initial values of the tuning.c statics (lines 17–21). -/
def initialDynState : DynState :=
  { simulated_velocity := 0, last_direction := 0, throttle_released := true,
    currently_braking := false }

/-- Iterate the realistic-throttle tick `n` times with a constant input. -/
def iterThrottle (esc : EscTuning) (t : Int) : Nat → DynState → DynState
  | 0, s => s
  | n + 1, s => iterThrottle esc t n (applyRealisticThrottle esc t s)

/-- Run the realistic-throttle tick over a list of inputs, first element
first. -/
def runThrottle (esc : EscTuning) : List Int → DynState → DynState
  | [], s => s
  | t :: ts, s => runThrottle esc ts (applyRealisticThrottle esc t s)

/-- C7 counterexample helper: a dynamics state with the braking flag set. -/
def brakingDynState : DynState :=
  { simulated_velocity := 120, last_direction := 1, throttle_released := false,
    currently_braking := true }

/-- C7 counterexample: the signal-loss reset does not clear
`currently_braking`.  Starting from a state in which `currently_braking`
is true, after `tuning_reset_realistic_throttle` the flag is still true,
contradicting the claim that the reset leaves `currently_braking = false`. -/
theorem C7_counterexample :
    (resetRealisticThrottle brakingDynState).currently_braking = true ∧
    ¬ (resetRealisticThrottle brakingDynState).currently_braking = false := by
  constructor
  · rfl
  · decide

/-- C7 (amended): after the signal-loss reset, for every prior state, the
state is deterministically `simulated_velocity = 0`, `last_direction = 0`,
`throttle_released = true`; `currently_braking` is left unchanged (it is
recomputed at the start of the next realistic-throttle tick). -/
theorem C7_reset_deterministic (s : DynState) :
    (resetRealisticThrottle s).simulated_velocity = 0 ∧
    (resetRealisticThrottle s).last_direction = 0 ∧
    (resetRealisticThrottle s).throttle_released = true ∧
    (resetRealisticThrottle s).currently_braking = s.currently_braking := by
  refine ⟨rfl, rfl, rfl, rfl⟩

/-! ### RPM controller (src/main/engine_sound.c) -/

/-- Truncating division agrees with Euclidean division on nonnegative
operands. -/
theorem tdiv_nonneg_eq (a b : Int) (ha : 0 ≤ a) (hb : 0 ≤ b) :
    Int.tdiv a b = a / b :=
  Int.tdiv_eq_ediv ha hb

/-- Reduction modulo 2^16, the effect of storing an `int` value into a
`uint16_t` variable. -/
def wrap16 (z : Int) : Int := z % 65536

/-- Base idle RPM (`IDLE_RPM`, engine_sound.c line 63). -/
def IDLE_RPM : Int := 100

/-- Maximum RPM bound computed by engine_sound.c as
`(IDLE_RPM * config.max_rpm_percentage) / 100`, stored into a `uint16_t`. -/
def maxRpmOf (pct : Int) : Int := wrap16 (Int.tdiv (IDLE_RPM * pct) 100)

/-- One RPM smoothing step, `update_rpm` (engine_sound.c lines 396–415):
move `current_rpm` toward `target_rpm` with a proportional-with-floor step
(`delta = max(config.acceleration, diff/10)` rising,
`max(config.deceleration, diff/10)` falling), clamp at the target, then
clamp into `[IDLE_RPM, IDLE_RPM * max_rpm_percentage / 100]`.
`current_rpm` and `target_rpm` are `uint16_t`; the `+=`/`-=` stores wrap
modulo 2^16. -/
def updateRpm (accel decel pct cur tgt : Int) : Int :=
  let c1 :=
    if cur < tgt then
      let d0 := Int.tdiv (tgt - cur) 10
      let d := if d0 < accel then accel else d0
      let c := wrap16 (cur + d)
      if tgt < c then tgt else c
    else if tgt < cur then
      let d0 := Int.tdiv (cur - tgt) 10
      let d := if d0 < decel then decel else d0
      let c := wrap16 (cur - d)
      if c < tgt then tgt else c
    else cur
  let c2 := if c1 < IDLE_RPM then IDLE_RPM else c1
  if maxRpmOf pct < c2 then maxRpmOf pct else c2

/-- `engine_sound_set_rpm` (engine_sound.c lines 1617–1622): clamps the
requested value into `[IDLE_RPM, IDLE_RPM * max_rpm_percentage / 100]` and
stores it into `target_rpm`.  `current_rpm` is not assigned. -/
def engineSoundSetRpm (pct rpm : Int) : Int :=
  let r := if rpm < IDLE_RPM then IDLE_RPM else rpm
  if maxRpmOf pct < r then maxRpmOf pct else r

/-- Value `current_rpm` is set to by the start/stop transitions
(engine_sound.c lines 872 and 1266): `IDLE_RPM`. -/
def startTransitionRpm : Int := IDLE_RPM

theorem maxRpmOf_eq (pct : Int) (h0 : 0 ≤ pct) (h1 : pct ≤ 65535) :
    maxRpmOf pct = pct := by
  unfold maxRpmOf wrap16 IDLE_RPM
  rw [tdiv_nonneg_eq _ _ (by omega) (by omega)]
  omega

/-- C4 counterexample: for `max_rpm_percentage = 50` (below 100 but a
representable configuration value) the smoothing step leaves
`current_rpm = 50`, which does not lie in the claimed interval
`[IDLE_RPM, IDLE_RPM * 50 / 100] = [100, 50]` — the interval is empty and
the claim fails. -/
theorem C4_counterexample :
    ¬ (IDLE_RPM ≤ updateRpm 2 1 50 100 100 ∧
       updateRpm 2 1 50 100 100 ≤ Int.tdiv (IDLE_RPM * 50) 100) := by
  decide

/-- C4 (amended): for every configuration with `max_rpm_percentage ≥ 100`
(so the interval is nonempty; `max_rpm_percentage` is a `uint16_t`, hence
at most 65535), every operation touching the RPM state respects
`[IDLE_RPM, IDLE_RPM * max_rpm_percentage / 100]`: the smoothing step
lands in the interval from any `uint16_t` state, set-RPM clamps
`target_rpm` into the interval while leaving `current_rpm` unmodified, and
the start/stop transitions set `current_rpm = IDLE_RPM`, which is in the
interval. -/
theorem C4_rpm_invariant (accel decel pct cur tgt rpm : Int)
    (hpct : 100 ≤ pct ∧ pct ≤ 65535)
    (hcur : 0 ≤ cur ∧ cur < 65536) (htgt : 0 ≤ tgt ∧ tgt < 65536) :
    (IDLE_RPM ≤ updateRpm accel decel pct cur tgt ∧
     updateRpm accel decel pct cur tgt ≤ Int.tdiv (IDLE_RPM * pct) 100) ∧
    (IDLE_RPM ≤ engineSoundSetRpm pct rpm ∧
     engineSoundSetRpm pct rpm ≤ Int.tdiv (IDLE_RPM * pct) 100) ∧
    (IDLE_RPM ≤ startTransitionRpm ∧
     startTransitionRpm ≤ Int.tdiv (IDLE_RPM * pct) 100) := by
  have hmx : maxRpmOf pct = pct := maxRpmOf_eq pct (by omega) (by omega)
  have hb : Int.tdiv (IDLE_RPM * pct) 100 = pct := by
    have := hmx
    unfold maxRpmOf wrap16 at this
    unfold IDLE_RPM at this ⊢
    rw [tdiv_nonneg_eq _ _ (by omega) (by omega)] at this ⊢
    omega
  refine ⟨?_, ?_, ?_⟩
  · unfold updateRpm
    rw [hmx, hb]
    split_ifs <;> simp only [IDLE_RPM] at * <;> omega
  · unfold engineSoundSetRpm
    rw [hmx, hb]
    split_ifs <;> simp only [IDLE_RPM] at * <;> omega
  · unfold startTransitionRpm
    rw [hb]
    simp only [IDLE_RPM]
    omega

/-- C4 witness: the amended invariant instantiated at the default
configuration (`max_rpm_percentage = 300`, acceleration 2, deceleration 1)
with `current_rpm = 250`, `target_rpm = 280`, requested RPM 9999. -/
theorem C4_rpm_invariant_witness :
    (IDLE_RPM ≤ updateRpm 2 1 300 250 280 ∧
     updateRpm 2 1 300 250 280 ≤ Int.tdiv (IDLE_RPM * 300) 100) ∧
    (IDLE_RPM ≤ engineSoundSetRpm 300 9999 ∧
     engineSoundSetRpm 300 9999 ≤ Int.tdiv (IDLE_RPM * 300) 100) ∧
    (IDLE_RPM ≤ startTransitionRpm ∧
     startTransitionRpm ≤ Int.tdiv (IDLE_RPM * 300) 100) :=
  C4_rpm_invariant 2 1 300 250 280 9999 (by decide) (by decide) (by decide)

/-- C5: with the configuration in its documented range
(engine_sound.h: `max_rpm_percentage` 200–400 — any value in [100,400]
suffices here — `acceleration` 1–9, `deceleration` 1–5; outside those
ranges a large rate can wrap the `uint16_t` subtraction),
and `current_rpm`, `target_rpm` inside
`[IDLE_RPM, IDLE_RPM * max_rpm_percentage / 100]`, one smoothing step
moves `current_rpm` by exactly
`min(max(acceleration, diff/10), diff)` when rising and
`min(max(deceleration, diff/10), diff)` when falling, never moves past the
target, and leaves `current_rpm` unchanged when it already equals the
target. -/
theorem C5_rpm_step_exact (accel decel pct cur tgt : Int)
    (hpct : 100 ≤ pct ∧ pct ≤ 400)
    (haccel : 1 ≤ accel ∧ accel ≤ 9) (hdecel : 1 ≤ decel ∧ decel ≤ 5)
    (hcur : IDLE_RPM ≤ cur ∧ cur ≤ Int.tdiv (IDLE_RPM * pct) 100)
    (htgt : IDLE_RPM ≤ tgt ∧ tgt ≤ Int.tdiv (IDLE_RPM * pct) 100) :
    (cur < tgt →
      updateRpm accel decel pct cur tgt
        = cur + min (max accel (Int.tdiv (tgt - cur) 10)) (tgt - cur) ∧
      updateRpm accel decel pct cur tgt ≤ tgt) ∧
    (tgt < cur →
      updateRpm accel decel pct cur tgt
        = cur - min (max decel (Int.tdiv (cur - tgt) 10)) (cur - tgt) ∧
      tgt ≤ updateRpm accel decel pct cur tgt) ∧
    (cur = tgt → updateRpm accel decel pct cur tgt = cur) := by
  have hb : Int.tdiv (IDLE_RPM * pct) 100 = pct := by
    unfold IDLE_RPM
    rw [tdiv_nonneg_eq _ _ (by omega) (by omega)]
    omega
  have hmx : maxRpmOf pct = pct := maxRpmOf_eq pct (by omega) (by omega)
  rw [hb] at hcur htgt
  simp only [IDLE_RPM] at hcur htgt
  unfold updateRpm wrap16
  rw [hmx]
  simp only [IDLE_RPM]
  refine ⟨?_, ?_, ?_⟩
  · intro hlt
    rw [tdiv_nonneg_eq (tgt - cur) 10 (by omega) (by omega)]
    have hd : (tgt - cur) / 10 ≤ tgt - cur := by omega
    split_ifs <;> omega
  · intro hgt
    rw [tdiv_nonneg_eq (cur - tgt) 10 (by omega) (by omega)]
    have hd : (cur - tgt) / 10 ≤ cur - tgt := by omega
    split_ifs <;> omega
  · intro heq
    split_ifs <;> omega

/-- C5 witness: the step characterization at the default configuration
with `current_rpm = 150`, `target_rpm = 300`. -/
theorem C5_rpm_step_exact_witness :
    ((150 : Int) < 300 →
      updateRpm 2 1 300 150 300
        = 150 + min (max 2 (Int.tdiv ((300 : Int) - 150) 10)) (300 - 150) ∧
      updateRpm 2 1 300 150 300 ≤ 300) ∧
    ((300 : Int) < 150 →
      updateRpm 2 1 300 150 300
        = 150 - min (max 1 (Int.tdiv ((150 : Int) - 300) 10)) (150 - 300) ∧
      300 ≤ updateRpm 2 1 300 150 300) ∧
    ((150 : Int) = 300 → updateRpm 2 1 300 150 300 = 150) :=
  C5_rpm_step_exact 2 1 300 150 300 (by decide) (by decide) (by decide)
    (by decide) (by decide)

/-! ### Idle/rev crossfade proportions (engine_sound.c lines 327–359, 426–451) -/

/-- `calc_idle_proportion` (engine_sound.c lines 327–340): 90 at or below
`rev_switch_point`, 0 at or above `idle_end_point`, linear interpolation
between.  All quantities are unsigned in C; the `uint8_t` cast of
`(pos * 90) / range` is the identity since the quotient is below 90. -/
def calcIdleProportion (revSwitch idleEnd rpm : Nat) : Nat :=
  if rpm ≤ revSwitch then 90
  else if idleEnd ≤ rpm then 0
  else 90 - (rpm - revSwitch) * 90 / (idleEnd - revSwitch)

/-- Rev proportion actually applied by the mixer
(`mix_engine_samples`, engine_sound.c line 431): `100 - idle_prop`.
This is not `calc_rev_proportion`; the mixer never calls that function. -/
def mixerRevProportion (revSwitch idleEnd rpm : Nat) : Nat :=
  100 - calcIdleProportion revSwitch idleEnd rpm

/-- C6 counterexample: at the default configuration
(`rev_switch_point = 120`, `idle_end_point = 450`) and `rpm = 100` (below
the lower switch point) the rev proportion the mixer applies is
`100 - 90 = 10`, not `0` as the claim states. -/
theorem C6_counterexample :
    mixerRevProportion 120 450 100 = 10 ∧ ¬ mixerRevProportion 120 450 100 = 0 := by
  constructor
  · rfl
  · decide

theorem calcIdleProportion_le_90 (revSwitch idleEnd rpm : Nat) :
    calcIdleProportion revSwitch idleEnd rpm ≤ 90 := by
  unfold calcIdleProportion
  set q := (rpm - revSwitch) * 90 / (idleEnd - revSwitch)
  clear_value q
  split_ifs <;> omega

theorem calcIdleProportion_antitone (revSwitch idleEnd : Nat)
    (h : revSwitch < idleEnd) (r1 r2 : Nat) (hr : r1 ≤ r2) :
    calcIdleProportion revSwitch idleEnd r2 ≤ calcIdleProportion revSwitch idleEnd r1 := by
  have h12 : (r1 - revSwitch) * 90 / (idleEnd - revSwitch)
      ≤ (r2 - revSwitch) * 90 / (idleEnd - revSwitch) :=
    Nat.div_le_div_right (Nat.mul_le_mul_right 90 (by omega))
  unfold calcIdleProportion
  set q1 := (r1 - revSwitch) * 90 / (idleEnd - revSwitch)
  set q2 := (r2 - revSwitch) * 90 / (idleEnd - revSwitch)
  clear_value q1 q2
  split_ifs <;> omega

/-- C6 (amended): for every RPM the idle proportion is 90 at or below
`rev_switch_point`, 0 at or above `idle_end_point`, and the linear
interpolation `90 - (rpm - switch) * 90 / range` between, hence always in
[0, 90] and monotonically non-increasing in RPM; the rev proportion the
mixer applies equals `100 - idle`, hence is **10** (not 0) at or below the
lower switch point, 100 at or above the upper point, and monotonically
non-decreasing in RPM. -/
theorem C6_crossfade (revSwitch idleEnd rpm : Nat) (h : revSwitch < idleEnd) :
    (rpm ≤ revSwitch → calcIdleProportion revSwitch idleEnd rpm = 90) ∧
    (idleEnd ≤ rpm → calcIdleProportion revSwitch idleEnd rpm = 0) ∧
    (revSwitch < rpm → rpm < idleEnd →
      calcIdleProportion revSwitch idleEnd rpm
        = 90 - (rpm - revSwitch) * 90 / (idleEnd - revSwitch)) ∧
    calcIdleProportion revSwitch idleEnd rpm ≤ 90 ∧
    (∀ r1 r2, r1 ≤ r2 →
      calcIdleProportion revSwitch idleEnd r2 ≤ calcIdleProportion revSwitch idleEnd r1) ∧
    mixerRevProportion revSwitch idleEnd rpm
      = 100 - calcIdleProportion revSwitch idleEnd rpm ∧
    (rpm ≤ revSwitch → mixerRevProportion revSwitch idleEnd rpm = 10) ∧
    (idleEnd ≤ rpm → mixerRevProportion revSwitch idleEnd rpm = 100) ∧
    (∀ r1 r2, r1 ≤ r2 →
      mixerRevProportion revSwitch idleEnd r1 ≤ mixerRevProportion revSwitch idleEnd r2) := by
  refine ⟨?_, ?_, ?_, calcIdleProportion_le_90 _ _ _,
    calcIdleProportion_antitone _ _ h, rfl, ?_, ?_, ?_⟩
  · intro hle
    unfold calcIdleProportion
    rw [if_pos hle]
  · intro hge
    unfold calcIdleProportion
    rw [if_neg (by omega), if_pos hge]
  · intro hlo hhi
    unfold calcIdleProportion
    rw [if_neg (by omega), if_neg (by omega)]
  · intro hle
    unfold mixerRevProportion calcIdleProportion
    rw [if_pos hle]
  · intro hge
    unfold mixerRevProportion calcIdleProportion
    rw [if_neg (by omega), if_pos hge]
  · intro r1 r2 hr
    unfold mixerRevProportion
    have h1 := calcIdleProportion_antitone revSwitch idleEnd h r1 r2 hr
    have h2 := calcIdleProportion_le_90 revSwitch idleEnd r1
    have h3 := calcIdleProportion_le_90 revSwitch idleEnd r2
    omega

/-- C6 witness: the amended crossfade characterization at the default
configuration (`rev_switch_point = 120`, `idle_end_point = 450`) and
`rpm = 200`. -/
theorem C6_crossfade_witness :
    ((200 : Nat) ≤ 120 → calcIdleProportion 120 450 200 = 90) ∧
    ((450 : Nat) ≤ 200 → calcIdleProportion 120 450 200 = 0) ∧
    ((120 : Nat) < 200 → 200 < 450 →
      calcIdleProportion 120 450 200 = 90 - (200 - 120) * 90 / (450 - 120)) ∧
    calcIdleProportion 120 450 200 ≤ 90 ∧
    (∀ r1 r2, r1 ≤ r2 →
      calcIdleProportion 120 450 r2 ≤ calcIdleProportion 120 450 r1) ∧
    mixerRevProportion 120 450 200 = 100 - calcIdleProportion 120 450 200 ∧
    ((200 : Nat) ≤ 120 → mixerRevProportion 120 450 200 = 10) ∧
    ((450 : Nat) ≤ 200 → mixerRevProportion 120 450 200 = 100) ∧
    (∀ r1 r2, r1 ≤ r2 →
      mixerRevProportion 120 450 r1 ≤ mixerRevProportion 120 450 r2) :=
  C6_crossfade 120 450 200 (by decide)

/-! ### Sound profile registry (src/main/sounds/sound_profiles.c) and
profile switching (engine_sound.c lines 1659–1692) -/

/-- Number of registered profiles (`SOUND_PROFILE_COUNT` = 4:
URAL 4320, Tatra 813, Detroit 8V92, CAT 3408). -/
def SOUND_PROFILE_COUNT : Nat := 4

/-- Fields of a sound profile definition relevant to the claims under
verification (the sample payloads live in data headers). -/
structure SoundProfileDef where
  cylinder_count : Nat
  has_jake_brake : Bool
deriving DecidableEq

/-- The static `profiles` table of sound_profiles.c (cylinder counts and
jake-brake capability per entry; index 0 = URAL 4320, 1 = Tatra 813,
2 = Detroit 8V92, 3 = CAT 3408). -/
def profileTable : Nat → SoundProfileDef
  | 0 => { cylinder_count := 8, has_jake_brake := true }
  | 1 => { cylinder_count := 12, has_jake_brake := true }
  | 2 => { cylinder_count := 8, has_jake_brake := true }
  | 3 => { cylinder_count := 8, has_jake_brake := false }
  | _ + 4 => { cylinder_count := 8, has_jake_brake := true }

/-- `sound_profiles_get` (sound_profiles.c lines 180–185): an index at or
above `SOUND_PROFILE_COUNT` is clamped to `SOUND_PROFILE_URAL_4320`
(index 0, the default profile); otherwise the requested entry is
returned.  The result is the index of the table entry whose address the C
function returns. -/
def soundProfilesGetIdx (p : Nat) : Nat :=
  if SOUND_PROFILE_COUNT ≤ p then 0 else p

/-- Mutable engine-sound state touched by `engine_sound_set_profile`:
the selected profile in the config, the active profile reference, the
knock interval, and the sample-position cursors it resets. -/
structure ProfileSwitchState where
  config_profile : Nat
  current_profile : Nat
  knock_interval : Nat
  idle_sample_pos : Nat
  rev_sample_pos : Nat
  knock_sample_pos : Nat
  jake_sample_pos : Nat
  last_knock_pos : Nat
  knock_counter : Nat
deriving DecidableEq

/-- `engine_sound_set_profile` (engine_sound.c lines 1659–1692): an index
at or above `SOUND_PROFILE_COUNT` is rejected with `ESP_ERR_INVALID_ARG`
and the state is left untouched; otherwise the profile is installed, the
knock interval follows the profile cylinder count, and all engine sample
cursors are reset to 0. -/
def engineSoundSetProfile (p : Nat) (st : ProfileSwitchState) :
    Except Unit ProfileSwitchState :=
  if SOUND_PROFILE_COUNT ≤ p then Except.error ()
  else Except.ok
    { config_profile := p,
      current_profile := soundProfilesGetIdx p,
      knock_interval := (profileTable (soundProfilesGetIdx p)).cylinder_count,
      idle_sample_pos := 0, rev_sample_pos := 0, knock_sample_pos := 0,
      jake_sample_pos := 0, last_knock_pos := 0, knock_counter := 0 }

/-- Arbitrary prior state used by the C8 counterexample: cursors mid-way
through their buffers. -/
def someProfileState : ProfileSwitchState :=
  { config_profile := 1, current_profile := 1, knock_interval := 12,
    idle_sample_pos := 123456, rev_sample_pos := 7890, knock_sample_pos := 42,
    jake_sample_pos := 7, last_knock_pos := 3, knock_counter := 9 }

/-- C8 counterexample: for the out-of-range index 4
(= `SOUND_PROFILE_COUNT`), the set-profile operation returns an error
(`ESP_ERR_INVALID_ARG`) instead of clamping to the default profile and
succeeding. -/
theorem C8_counterexample :
    engineSoundSetProfile 4 someProfileState = Except.error () ∧
    ∀ st, engineSoundSetProfile 4 someProfileState ≠ Except.ok st := by
  constructor
  · rfl
  · intro st h
    rw [show engineSoundSetProfile 4 someProfileState = Except.error () from rfl] at h
    exact Except.noConfusion h

/-- C8 (amended): an out-of-range profile index makes
`engine_sound_set_profile` fail with an invalid-argument error and leave
the state unchanged (only the registry lookup `sound_profiles_get` clamps
such an index to the default profile 0); every in-range index succeeds,
selects exactly that profile, sets the knock interval from the profile
cylinder count, and resets all engine sample cursors to 0 regardless of
their prior position. -/
theorem C8_set_profile (p : Nat) (st : ProfileSwitchState) :
    (SOUND_PROFILE_COUNT ≤ p →
      engineSoundSetProfile p st = Except.error () ∧ soundProfilesGetIdx p = 0) ∧
    (p < SOUND_PROFILE_COUNT →
      engineSoundSetProfile p st = Except.ok
        { config_profile := p, current_profile := p,
          knock_interval := (profileTable p).cylinder_count,
          idle_sample_pos := 0, rev_sample_pos := 0, knock_sample_pos := 0,
          jake_sample_pos := 0, last_knock_pos := 0, knock_counter := 0 }) := by
  constructor
  · intro hp
    unfold engineSoundSetProfile soundProfilesGetIdx
    rw [if_pos hp, if_pos hp]
    exact ⟨rfl, rfl⟩
  · intro hp
    unfold engineSoundSetProfile soundProfilesGetIdx
    rw [if_neg (by omega), if_neg (by omega)]

/-- C8 witness: the amended behaviour at the out-of-range index 7 and at
the in-range index 2 (Detroit 8V92). -/
theorem C8_set_profile_witness :
    (engineSoundSetProfile 7 someProfileState = Except.error () ∧
     soundProfilesGetIdx 7 = 0) ∧
    engineSoundSetProfile 2 someProfileState = Except.ok
      { config_profile := 2, current_profile := 2,
        knock_interval := (profileTable 2).cylinder_count,
        idle_sample_pos := 0, rev_sample_pos := 0, knock_sample_pos := 0,
        jake_sample_pos := 0, last_knock_pos := 0, knock_counter := 0 } :=
  ⟨(C8_set_profile 7 someProfileState).1 (by decide),
   (C8_set_profile 2 someProfileState).2 (by decide)⟩

/-! ### Persisted sound configuration (engine_sound.c lines 994–1146) -/

/-- Magic constant guarding the persisted sound-config blob
(`SOUND_CONFIG_MAGIC`).  The numeric value is defined in a header that is
not part of the sources under verification; only equality with itself is
used, so the value is irrelevant here. -/
def SOUND_CONFIG_MAGIC : Nat := 1397706307

/-- Current persisted-config version (`SOUND_CONFIG_VERSION`).  The
migration code of engine_sound.c (version history comment, lines
1039–1044) identifies v3 as the current layout. -/
def SOUND_CONFIG_VERSION : Nat := 3

/-- Default profile selection (`SOUND_PROFILE_CAT_3408` = 3). -/
def SOUND_PROFILE_CAT_3408 : Nat := 3

/-- Default horn selection (`HORN_TYPE_TRUCK`; the numeric enum value is
defined in a header outside the verified sources and is only compared for
equality, value chosen as 0 = first enumerator). -/
def HORN_TYPE_TRUCK : Nat := 0

/-- The full persisted engine-sound configuration
(`engine_sound_config_t` as actually used by engine_sound.c). -/
structure EngineSoundConfig where
  magic : Nat
  version : Nat
  profile : Nat
  master_volume_level1 : Nat
  master_volume_level2 : Nat
  active_volume_level : Nat
  volume_preset_low : Nat
  volume_preset_medium : Nat
  volume_preset_high : Nat
  idle_volume : Nat
  rev_volume : Nat
  knock_volume : Nat
  start_volume : Nat
  max_rpm_percentage : Nat
  acceleration : Nat
  deceleration : Nat
  rev_switch_point : Nat
  idle_end_point : Nat
  knock_start_point : Nat
  knock_interval : Nat
  jake_brake_enabled : Bool
  v8_mode : Bool
  air_brake_enabled : Bool
  air_brake_volume : Nat
  reverse_beep_enabled : Bool
  reverse_beep_volume : Nat
  gear_shift_enabled : Bool
  gear_shift_volume : Nat
  wastegate_enabled : Bool
  wastegate_volume : Nat
  horn_enabled : Bool
  horn_type : Nat
  horn_volume : Nat
  mode_switch_sound_enabled : Bool
  mode_switch_volume : Nat
deriving DecidableEq

/-- `sound_config_get_defaults` (engine_sound.c lines 994–1033): the
compiled-in default configuration, every field set explicitly. -/
def soundConfigGetDefaults : EngineSoundConfig :=
  { magic := SOUND_CONFIG_MAGIC
    version := SOUND_CONFIG_VERSION
    profile := SOUND_PROFILE_CAT_3408
    master_volume_level1 := 100
    master_volume_level2 := 50
    active_volume_level := 0
    volume_preset_low := 20
    volume_preset_medium := 100
    volume_preset_high := 170
    idle_volume := 100
    rev_volume := 80
    knock_volume := 80
    start_volume := 90
    max_rpm_percentage := 300
    acceleration := 2
    deceleration := 1
    rev_switch_point := 120
    idle_end_point := 450
    knock_start_point := 150
    knock_interval := 8
    jake_brake_enabled := true
    v8_mode := true
    air_brake_enabled := true
    air_brake_volume := 70
    reverse_beep_enabled := true
    reverse_beep_volume := 70
    gear_shift_enabled := true
    gear_shift_volume := 70
    wastegate_enabled := true
    wastegate_volume := 70
    horn_enabled := true
    horn_type := HORN_TYPE_TRUCK
    horn_volume := 80
    mode_switch_sound_enabled := true
    mode_switch_volume := 80 }

/-- `sound_config_migrate` (engine_sound.c lines 1046–1094): start from
fresh defaults, preserve the profile, for v1 blobs keep the old master
volume (level 2 becomes half of it), for v2+ blobs keep both volume levels
and the active level, then stamp the current magic and version. -/
def soundConfigMigrate (old : EngineSoundConfig) : EngineSoundConfig :=
  let n0 := soundConfigGetDefaults
  let n1 := { n0 with profile := old.profile }
  let n2 :=
    if old.version = 1 then
      { n1 with master_volume_level1 := old.master_volume_level1,
                master_volume_level2 := old.master_volume_level1 / 2,
                active_volume_level := 0 }
    else n1
  let n3 :=
    if 2 ≤ old.version then
      { n2 with master_volume_level1 := old.master_volume_level1,
                master_volume_level2 := old.master_volume_level2,
                active_volume_level := old.active_volume_level }
    else n2
  { n3 with magic := SOUND_CONFIG_MAGIC, version := SOUND_CONFIG_VERSION }

/-- Result of `nvs_load_sound_config`: either some failing error code, or
a loaded blob. -/
inductive ConfigLoadResult where
  | fail : ConfigLoadResult
  | loaded : EngineSoundConfig → ConfigLoadResult
deriving DecidableEq

/-- Config-resolution step of `engine_sound_init` (engine_sound.c lines
1127–1146): on load failure or magic mismatch install the defaults and
write them back; on version mismatch migrate and write back; otherwise
adopt the loaded blob.  The boolean records whether the resolved config
was written back to NVS. -/
def resolveSoundConfig (r : ConfigLoadResult) : EngineSoundConfig × Bool :=
  match r with
  | ConfigLoadResult.fail => (soundConfigGetDefaults, true)
  | ConfigLoadResult.loaded c =>
      if c.magic ≠ SOUND_CONFIG_MAGIC then (soundConfigGetDefaults, true)
      else if c.version ≠ SOUND_CONFIG_VERSION then (soundConfigMigrate c, true)
      else (c, false)

/-- Outcome of `engine_sound_init`. -/
inductive InitOutcome where
  | err : InitOutcome
  | ok : EngineSoundConfig → Bool → InitOutcome
deriving DecidableEq

/-- Control flow of `engine_sound_init` (engine_sound.c lines 1100–1211)
over the results of its fallible collaborators: mutex creation, timer
creation, the NVS config load, profile lookup (checked against NULL) and
task creation.  The config load feeds `resolveSoundConfig`; its failure is
never returned to the caller.  After resolution the knock interval is
overwritten with the active profile's cylinder count (line 1157). -/
def engineSoundInit (mutexOk timerOk profileOk taskOk : Bool)
    (r : ConfigLoadResult) : InitOutcome :=
  if mutexOk = false then InitOutcome.err
  else if timerOk = false then InitOutcome.err
  else
    let resolved := resolveSoundConfig r
    if profileOk = false then InitOutcome.err
    else if taskOk = false then InitOutcome.err
    else InitOutcome.ok
      { resolved.1 with knock_interval :=
          (profileTable (soundProfilesGetIdx resolved.1.profile)).cylinder_count }
      resolved.2

/-- C9: if loading the persisted sound configuration fails, or the loaded
blob's magic does not match, initialization resolves to the compiled-in
default configuration (every field at its default, as one record
equality), writes it back to persistent storage, and — provided the
claim-unrelated init steps succeed — `engine_sound_init` still returns
success with that configuration (the knock-interval override from the
default CAT 3408 profile equals the default value 8, so the returned
config is exactly the defaults). -/
theorem C9_defaults_fallback (r : ConfigLoadResult)
    (h : r = ConfigLoadResult.fail ∨
         ∃ c, r = ConfigLoadResult.loaded c ∧ c.magic ≠ SOUND_CONFIG_MAGIC) :
    resolveSoundConfig r = (soundConfigGetDefaults, true) ∧
    engineSoundInit true true true true r
      = InitOutcome.ok soundConfigGetDefaults true := by
  have hres : resolveSoundConfig r = (soundConfigGetDefaults, true) := by
    rcases h with h | ⟨c, hc, hm⟩
    · rw [h]; rfl
    · subst hc
      simp only [resolveSoundConfig]
      rw [if_pos hm]
  refine ⟨hres, ?_⟩
  unfold engineSoundInit
  rw [hres]
  rfl

/-- C9 witness: the fallback conclusion at a concrete corrupted blob (a
config whose magic is 0). -/
theorem C9_defaults_fallback_witness :
    resolveSoundConfig
        (ConfigLoadResult.loaded { soundConfigGetDefaults with magic := 0 })
      = (soundConfigGetDefaults, true) ∧
    engineSoundInit true true true true
        (ConfigLoadResult.loaded { soundConfigGetDefaults with magic := 0 })
      = InitOutcome.ok soundConfigGetDefaults true :=
  C9_defaults_fallback _
    (Or.inr ⟨{ soundConfigGetDefaults with magic := 0 }, rfl, by decide⟩)

/-! ### Automatic transmission model (engine_sound.c lines 1398–1467) -/

/-- Load-interpolated upshift point (engine_sound.c lines 1405–1410):
base at 78% of the usable RPM range, max at 98%, linearly interpolated by
`engine_load / 180`. -/
def upshiftPoint (pct load : Int) : Int :=
  let range := maxRpmOf pct - IDLE_RPM
  let base := IDLE_RPM + Int.tdiv (range * 78) 100
  let hi := IDLE_RPM + Int.tdiv (range * 98) 100
  base + Int.tdiv ((hi - base) * load) 180

/-- Load-interpolated downshift point (engine_sound.c lines 1412–1415):
base at 30% of the usable RPM range, max at 50%. -/
def downshiftPoint (pct load : Int) : Int :=
  let range := maxRpmOf pct - IDLE_RPM
  let base := IDLE_RPM + Int.tdiv (range * 30) 100
  let hi := IDLE_RPM + Int.tdiv (range * 50) 100
  base + Int.tdiv ((hi - base) * load) 180

/-- Transmission state mutated by the gear-selection block: the gear, the
settled-since-upshift flag, and the two shift-lockout timestamps. -/
structure TransState where
  current_gear : Nat
  rpm_settled_after_upshift : Bool
  last_upshift_time : Int
  last_downshift_time : Int
deriving DecidableEq

/-- Gear-selection block of `engine_sound_update` (engine_sound.c lines
1417–1467), as a pure step.  Inputs: the configured
`max_rpm_percentage`, the current time in ms, the smoothed RPM, the
engine load, the braking flag and the in-reverse flag.  Returns the new
transmission state together with the shift-event flag
(`gear_shift_trigger`).  Mirrors the C control flow: reverse pseudo-gear
handling first, then the settled-flag update, the upshift (with
2000 ms sustained-high-RPM override), and the downshift check performed
after the upshift using the already-updated state. -/
def gearStep (pct now rpm load : Int) (isBraking inReverse : Bool)
    (ts : TransState) : TransState × Bool :=
  if inReverse = true then ({ ts with current_gear := 0 }, false)
  else if ts.current_gear = 0 then ({ ts with current_gear := 1 }, false)
  else
    let up := upshiftPoint pct load
    let down := downshiftPoint pct load
    let timeOverride := now - ts.last_upshift_time > 2000
    let settled := if rpm < up - 30 then true else ts.rpm_settled_after_upshift
    let up1 :=
      if now - ts.last_downshift_time > 800 ∧ now - ts.last_upshift_time > 800 ∧
         (settled = true ∨ timeOverride) ∧ up ≤ rpm ∧ load < 10 ∧
         ts.current_gear < 3 ∧ isBraking = false then
        (({ current_gear := ts.current_gear + 1, rpm_settled_after_upshift := false,
            last_upshift_time := now,
            last_downshift_time := ts.last_downshift_time } : TransState), true)
      else ({ ts with rpm_settled_after_upshift := settled }, false)
    let ts1 := up1.1
    let atMax := maxRpmOf pct - 20 ≤ rpm
    let kick := load > 100 ∧ ¬atMax ∧ ts1.current_gear > 2
    if now - ts1.last_upshift_time > 800 ∧ now - ts1.last_downshift_time > 800 ∧
       ts1.current_gear > 1 ∧ (rpm ≤ down ∨ kick ∨ isBraking = true) then
      (({ ts1 with current_gear := ts1.current_gear - 1,
                   rpm_settled_after_upshift := true,
                   last_downshift_time := now }), true)
    else (ts1, up1.2)

/-- C3: for every step of the transmission model with the vehicle not in
reverse and the gear in the forward range (the reverse pseudo-gear 0 is
entered and left solely by the direction signal, bypassing this logic, as
the claim's own sources state): the gear only increases when
`current_rpm ≥ upshift_point`, `engine_load < 10`, not braking, and at
least 800 ms have elapsed since both the last upshift and the last
downshift; and it only decreases when, under the same 800 ms lockouts,
`current_rpm ≤ downshift_point`, or a kickdown applies (`engine_load >
100`, not within 20 RPM of max, gear > 2 — hence never into 1st), or the
vehicle is braking. -/
theorem C3_gear_guards (pct now rpm load : Int)
    (hpct : 100 ≤ pct ∧ pct ≤ 400) (isBraking : Bool)
    (ts : TransState) (hg : 1 ≤ ts.current_gear) :
    (ts.current_gear < (gearStep pct now rpm load isBraking false ts).1.current_gear →
      upshiftPoint pct load ≤ rpm ∧ load < 10 ∧ isBraking = false ∧
      800 ≤ now - ts.last_upshift_time ∧ 800 ≤ now - ts.last_downshift_time) ∧
    ((gearStep pct now rpm load isBraking false ts).1.current_gear < ts.current_gear →
      800 ≤ now - ts.last_upshift_time ∧ 800 ≤ now - ts.last_downshift_time ∧
      (rpm ≤ downshiftPoint pct load ∨
       (100 < load ∧ rpm < maxRpmOf pct - 20 ∧ 2 < ts.current_gear) ∨
       isBraking = true)) := by
  unfold gearStep
  rw [if_neg (by simp), if_neg (by omega)]
  set up := upshiftPoint pct load
  set down := downshiftPoint pct load
  set mx := maxRpmOf pct
  clear_value up down mx
  dsimp only
  by_cases hup : now - ts.last_downshift_time > 800 ∧ now - ts.last_upshift_time > 800 ∧
      ((if rpm < up - 30 then true else ts.rpm_settled_after_upshift) = true ∨
        now - ts.last_upshift_time > 2000) ∧ up ≤ rpm ∧ load < 10 ∧
      ts.current_gear < 3 ∧ isBraking = false
  · have hA := hup.1
    have hB := hup.2.1
    rw [if_pos hup]
    dsimp only
    rw [if_neg (fun hcon => absurd hcon.1 (by omega))]
    dsimp only
    constructor
    · intro _
      exact ⟨hup.2.2.2.1, hup.2.2.2.2.1, hup.2.2.2.2.2.2, by omega, by omega⟩
    · intro hdec
      omega
  · rw [if_neg hup]
    dsimp only
    by_cases hdn : now - ts.last_upshift_time > 800 ∧ now - ts.last_downshift_time > 800 ∧
        ts.current_gear > 1 ∧ (rpm ≤ down ∨ (load > 100 ∧ ¬(mx - 20 ≤ rpm) ∧
          ts.current_gear > 2) ∨ isBraking = true)
    · have hA := hdn.1
      have hB := hdn.2.1
      rw [if_pos hdn]
      dsimp only
      constructor
      · intro hinc
        omega
      · intro _
        refine ⟨by omega, by omega, ?_⟩
        rcases hdn.2.2.2 with h | h | h
        · exact Or.inl h
        · exact Or.inr (Or.inl ⟨h.1, by omega, h.2.2⟩)
        · exact Or.inr (Or.inr h)
    · rw [if_neg hdn]
      dsimp only
      constructor
      · intro hinc
        omega
      · intro hdec
        omega

/-- C3 witness: the necessary-conditions statement instantiated at a
concrete upshift (default configuration `max_rpm_percentage = 300`, time
5000 ms, RPM 260, load 0, not braking, gear 1 with both lockout
timestamps at 0). -/
theorem C3_gear_guards_witness :
    (({ current_gear := 1, rpm_settled_after_upshift := true,
        last_upshift_time := 0, last_downshift_time := 0 } : TransState).current_gear <
       (gearStep 300 5000 260 0 false false
         { current_gear := 1, rpm_settled_after_upshift := true,
           last_upshift_time := 0, last_downshift_time := 0 }).1.current_gear →
      upshiftPoint 300 0 ≤ 260 ∧ (0 : Int) < 10 ∧ false = false ∧
      (800 : Int) ≤ 5000 - 0 ∧ (800 : Int) ≤ 5000 - 0) ∧
    ((gearStep 300 5000 260 0 false false
         { current_gear := 1, rpm_settled_after_upshift := true,
           last_upshift_time := 0, last_downshift_time := 0 }).1.current_gear <
       ({ current_gear := 1, rpm_settled_after_upshift := true,
          last_upshift_time := 0, last_downshift_time := 0 } : TransState).current_gear →
      (800 : Int) ≤ 5000 - 0 ∧ (800 : Int) ≤ 5000 - 0 ∧
      ((260 : Int) ≤ downshiftPoint 300 0 ∨
       ((100 : Int) < 0 ∧ (260 : Int) < maxRpmOf 300 - 20 ∧ 2 < 1) ∨
       false = true)) :=
  C3_gear_guards 300 5000 260 0 (by decide) false
    { current_gear := 1, rpm_settled_after_upshift := true,
      last_upshift_time := 0, last_downshift_time := 0 } (by decide)

/-! ### Dynamics trajectory properties (claims C1 and C2) -/

theorem coastDecel_bounds (esc : EscTuning) (h : ValidEsc esc) :
    5 ≤ coastDecel esc ∧ coastDecel esc ≤ 50 := by
  obtain ⟨h1, h2, h3, h4⟩ := h
  unfold coastDecel
  rw [tdiv_nonneg_eq _ _ (by positivity) (by omega)]
  have hr : 0 ≤ esc.coast_rate * 45 ∧ esc.coast_rate * 45 ≤ 4500 := by
    constructor <;> nlinarith
  dsimp only
  split_ifs <;> omega

theorem brakeStrength_bounds (esc : EscTuning) (h : ValidEsc esc) :
    5 ≤ brakeStrength esc ∧ brakeStrength esc ≤ 200 := by
  obtain ⟨h1, h2, h3, h4⟩ := h
  unfold brakeStrength
  rw [tdiv_nonneg_eq _ _ (by positivity) (by omega)]
  have : 0 ≤ esc.brake_force * 195 ∧ esc.brake_force * 195 ≤ 19500 := by
    constructor <;> nlinarith
  omega

theorem accelRate_bounds (esc : EscTuning) (h : ValidEsc esc) :
    20 ≤ accelRate esc ∧ accelRate esc ≤ 40 := by
  obtain ⟨h1, h2, h3, h4⟩ := h
  unfold accelRate
  rw [tdiv_nonneg_eq _ _ (by omega) (by omega)]
  omega

/-- Forward-motion region used for claim C2: the vehicle is moving
forward (with the direction tracker matching, which holds in every
reachable state), or it has just been braked to a stop from forward
motion with the throttle not yet released. -/
def FwdNoRev (s : DynState) : Prop :=
  (0 < s.simulated_velocity ∧ s.last_direction = 1) ∨
  (s.simulated_velocity = 0 ∧ s.last_direction = 1 ∧ s.throttle_released = false)

/-- Reverse-motion region, mirror image of `FwdNoRev`. -/
def RevNoFwd (s : DynState) : Prop :=
  (s.simulated_velocity < 0 ∧ s.last_direction = -1) ∨
  (s.simulated_velocity = 0 ∧ s.last_direction = -1 ∧ s.throttle_released = false)

theorem mid_rel_mono (esc : EscTuning) (t : Int) (s : DynState) (ht : t ≠ 0)
    (hrel : s.throttle_released = false) :
    (applyRealisticThrottleMid esc t s).throttle_released = false := by
  obtain ⟨v, ld, rel, brak⟩ := s
  dsimp only at hrel
  subst hrel
  unfold applyRealisticThrottleMid
  set cd := coastDecel esc
  set bs := brakeStrength esc
  set ar := accelRate esc
  clear_value cd bs ar
  dsimp only
  split_ifs <;> simp_all

set_option maxHeartbeats 2000000 in
theorem fwdNoRev_mid (esc : EscTuning) (h : ValidEsc esc) (t : Int) (ht : t ≠ 0)
    (s : DynState) (hs : FwdNoRev s) :
    FwdNoRev (applyRealisticThrottleMid esc t s) := by
  obtain ⟨hc1, hc2⟩ := coastDecel_bounds esc h
  obtain ⟨hb1, hb2⟩ := brakeStrength_bounds esc h
  obtain ⟨ha1, ha2⟩ := accelRate_bounds esc h
  obtain ⟨v, ld, rel, brak⟩ := s
  unfold FwdNoRev at hs ⊢
  unfold applyRealisticThrottleMid
  set cd := coastDecel esc
  set bs := brakeStrength esc
  set ar := accelRate esc
  clear_value cd bs ar
  dsimp only at hs ⊢
  rcases hs with ⟨hv, hld⟩ | ⟨hv, hld, hrel⟩
  · subst hld
    split_ifs <;> dsimp only <;>
      first
        | omega
        | exact Or.inl ⟨by omega, by omega⟩
        | exact Or.inr ⟨by omega, by omega, rfl⟩
        | (simp_all; omega)
        | simp_all
  · subst hld
    subst hrel
    split_ifs <;> dsimp only <;>
      first
        | omega
        | exact Or.inl ⟨by omega, by omega⟩
        | exact Or.inr ⟨by omega, by omega, rfl⟩
        | (simp_all; omega)
        | simp_all

set_option maxHeartbeats 2000000 in
theorem revNoFwd_mid (esc : EscTuning) (h : ValidEsc esc) (t : Int) (ht : t ≠ 0)
    (s : DynState) (hs : RevNoFwd s) :
    RevNoFwd (applyRealisticThrottleMid esc t s) := by
  obtain ⟨hc1, hc2⟩ := coastDecel_bounds esc h
  obtain ⟨hb1, hb2⟩ := brakeStrength_bounds esc h
  obtain ⟨ha1, ha2⟩ := accelRate_bounds esc h
  obtain ⟨v, ld, rel, brak⟩ := s
  unfold RevNoFwd at hs ⊢
  unfold applyRealisticThrottleMid
  set cd := coastDecel esc
  set bs := brakeStrength esc
  set ar := accelRate esc
  clear_value cd bs ar
  dsimp only at hs ⊢
  rcases hs with ⟨hv, hld⟩ | ⟨hv, hld, hrel⟩
  · subst hld
    split_ifs <;> dsimp only <;>
      first
        | omega
        | exact Or.inl ⟨by omega, by omega⟩
        | exact Or.inr ⟨by omega, by omega, rfl⟩
        | (simp_all; omega)
        | simp_all
  · subst hld
    subst hrel
    split_ifs <;> dsimp only <;>
      first
        | omega
        | exact Or.inl ⟨by omega, by omega⟩
        | exact Or.inr ⟨by omega, by omega, rfl⟩
        | (simp_all; omega)
        | simp_all

theorem step_sv (esc : EscTuning) (t : Int) (s : DynState) :
    (applyRealisticThrottle esc t s).simulated_velocity
      = (applyRealisticThrottleMid esc t s).simulated_velocity := by
  unfold applyRealisticThrottle
  dsimp only
  split_ifs <;> rfl

theorem step_rel (esc : EscTuning) (t : Int) (s : DynState) :
    (applyRealisticThrottle esc t s).throttle_released
      = (applyRealisticThrottleMid esc t s).throttle_released := by
  unfold applyRealisticThrottle
  dsimp only
  split_ifs <;> rfl

theorem step_ld (esc : EscTuning) (t : Int) (s : DynState) :
    (applyRealisticThrottle esc t s).last_direction = 0 ∨
    (applyRealisticThrottle esc t s).last_direction
      = (applyRealisticThrottleMid esc t s).last_direction := by
  unfold applyRealisticThrottle
  dsimp only
  split_ifs
  · exact Or.inl rfl
  · exact Or.inr rfl

theorem mid_stop_cases (esc : EscTuning) (t : Int) (s : DynState)
    (hv : s.simulated_velocity = 0) :
    (applyRealisticThrottleMid esc t s).simulated_velocity = 0 ∨
    (applyRealisticThrottleMid esc t s).throttle_released = false := by
  obtain ⟨v, ld, rel, brak⟩ := s
  dsimp only at hv
  subst hv
  unfold applyRealisticThrottleMid
  set cd := coastDecel esc
  set bs := brakeStrength esc
  set ar := accelRate esc
  clear_value cd bs ar
  dsimp only
  split_ifs <;> dsimp only <;>
    first
      | exact Or.inl rfl
      | exact Or.inr rfl
      | omega

/-- Direction tracker invariant: in every reachable dynamics state the
`last_direction` static matches the sign of the simulated velocity. -/
def DirTracksVel (s : DynState) : Prop :=
  (0 < s.simulated_velocity → s.last_direction = 1) ∧
  (s.simulated_velocity < 0 → s.last_direction = -1)

theorem dirTracksVel_initial : DirTracksVel initialDynState := by
  constructor <;> intro h <;> simp [initialDynState] at h

set_option maxHeartbeats 2000000 in
theorem dirTracksVel_mid (esc : EscTuning) (h : ValidEsc esc) (t : Int)
    (s : DynState) (hs : DirTracksVel s) :
    DirTracksVel (applyRealisticThrottleMid esc t s) := by
  obtain ⟨hc1, hc2⟩ := coastDecel_bounds esc h
  obtain ⟨hb1, hb2⟩ := brakeStrength_bounds esc h
  obtain ⟨ha1, ha2⟩ := accelRate_bounds esc h
  obtain ⟨v, ld, rel, brak⟩ := s
  unfold DirTracksVel at hs ⊢
  unfold applyRealisticThrottleMid
  set cd := coastDecel esc
  set bs := brakeStrength esc
  set ar := accelRate esc
  clear_value cd bs ar
  dsimp only at hs ⊢
  split_ifs <;> dsimp only <;>
    first
      | omega
      | constructor <;> intro <;> omega
      | (constructor <;> intro <;> first | rfl | omega)

theorem dirTracksVel_step (esc : EscTuning) (h : ValidEsc esc) (t : Int)
    (s : DynState) (hs : DirTracksVel s) :
    DirTracksVel (applyRealisticThrottle esc t s) := by
  have hmid := dirTracksVel_mid esc h t s hs
  unfold applyRealisticThrottle
  dsimp only
  by_cases hcond : s.simulated_velocity = 0 ∧
      (applyRealisticThrottleMid esc t s).throttle_released = true
  · rw [if_pos hcond]
    rcases mid_stop_cases esc t s hcond.1 with hz | hr
    · constructor <;> intro hlt <;> dsimp only at hlt <;> omega
    · rw [hcond.2] at hr
      exact absurd hr (by simp)
  · rw [if_neg hcond]
    exact hmid

theorem dirTracksVel_run (esc : EscTuning) (h : ValidEsc esc) (ts : List Int)
    (s : DynState) (hs : DirTracksVel s) :
    DirTracksVel (runThrottle esc ts s) := by
  induction ts generalizing s with
  | nil => exact hs
  | cons t ts ih =>
      exact ih (applyRealisticThrottle esc t s) (dirTracksVel_step esc h t s hs)

theorem fwdNoRev_step (esc : EscTuning) (h : ValidEsc esc) (t : Int) (ht : t ≠ 0)
    (s : DynState) (hs : FwdNoRev s) :
    FwdNoRev (applyRealisticThrottle esc t s) := by
  have hmid := fwdNoRev_mid esc h t ht s hs
  unfold applyRealisticThrottle
  dsimp only
  by_cases hcond : s.simulated_velocity = 0 ∧
      (applyRealisticThrottleMid esc t s).throttle_released = true
  · rcases hs with ⟨hv, _⟩ | ⟨hv, hld, hrel⟩
    · exact absurd hcond.1 (by omega)
    · have hmr := mid_rel_mono esc t s ht hrel
      rw [hcond.2] at hmr
      exact absurd hmr (by simp)
  · rw [if_neg hcond]
    exact hmid

theorem revNoFwd_step (esc : EscTuning) (h : ValidEsc esc) (t : Int) (ht : t ≠ 0)
    (s : DynState) (hs : RevNoFwd s) :
    RevNoFwd (applyRealisticThrottle esc t s) := by
  have hmid := revNoFwd_mid esc h t ht s hs
  unfold applyRealisticThrottle
  dsimp only
  by_cases hcond : s.simulated_velocity = 0 ∧
      (applyRealisticThrottleMid esc t s).throttle_released = true
  · rcases hs with ⟨hv, _⟩ | ⟨hv, hld, hrel⟩
    · exact absurd hcond.1 (by omega)
    · have hmr := mid_rel_mono esc t s ht hrel
      rw [hcond.2] at hmr
      exact absurd hmr (by simp)
  · rw [if_neg hcond]
    exact hmid

theorem fwdNoRev_run (esc : EscTuning) (h : ValidEsc esc) (ts : List Int)
    (hts : ∀ u ∈ ts, u ≠ 0) (s : DynState) (hs : FwdNoRev s) :
    FwdNoRev (runThrottle esc ts s) := by
  induction ts generalizing s with
  | nil => exact hs
  | cons t ts ih =>
      exact ih (fun u hu => hts u (List.mem_cons_of_mem _ hu)) _
        (fwdNoRev_step esc h t (hts t (List.mem_cons_self _ _)) s hs)

theorem revNoFwd_run (esc : EscTuning) (h : ValidEsc esc) (ts : List Int)
    (hts : ∀ u ∈ ts, u ≠ 0) (s : DynState) (hs : RevNoFwd s) :
    RevNoFwd (runThrottle esc ts s) := by
  induction ts generalizing s with
  | nil => exact hs
  | cons t ts ih =>
      exact ih (fun u hu => hts u (List.mem_cons_of_mem _ hu)) _
        (revNoFwd_step esc h t (hts t (List.mem_cons_self _ _)) s hs)

/-- C2: along every trajectory of the realistic-throttle tick with a
valid ESC configuration, starting from any state satisfying the
direction-tracker invariant (which holds in every reachable state:
`dirTracksVel_initial`, `dirTracksVel_step`, `dirTracksVel_run`), as long
as no tick has neutral throttle input (inputs range over the control
contract [-1000, 1000]), the simulated velocity never changes sign: from forward motion it stays nonnegative (so braking from
forward motion never produces reverse velocity before passing through 0),
and from reverse motion it stays nonpositive.  A sign change therefore
requires at least one intervening neutral-throttle tick. -/
theorem C2_no_direction_change (esc : EscTuning) (h : ValidEsc esc)
    (ts : List Int) (hts : ∀ u ∈ ts, u ≠ 0 ∧ -1000 ≤ u ∧ u ≤ 1000)
    (s : DynState) (hdir : DirTracksVel s) :
    (0 < s.simulated_velocity →
      0 ≤ (runThrottle esc ts s).simulated_velocity) ∧
    (s.simulated_velocity < 0 →
      (runThrottle esc ts s).simulated_velocity ≤ 0) := by
  have hts1 : ∀ u ∈ ts, u ≠ 0 := fun u hu => (hts u hu).1
  constructor
  · intro hv
    have hres := fwdNoRev_run esc h ts hts1 s (Or.inl ⟨hv, hdir.1 hv⟩)
    rcases hres with ⟨h1, _⟩ | ⟨h1, _, _⟩ <;> omega
  · intro hv
    have hres := revNoFwd_run esc h ts hts1 s (Or.inl ⟨hv, hdir.2 hv⟩)
    rcases hres with ⟨h1, _⟩ | ⟨h1, _, _⟩ <;> omega

/-- Default ESC tuning (config.h: `TUNING_DEFAULT_COAST_RATE = 50`,
`TUNING_DEFAULT_BRAKE_FORCE = 50`). -/
def defaultEsc : EscTuning := { coast_rate := 50, brake_force := 50 }

/-- C2 witness: braking from forward motion (velocity 800, constant
throttle −800 for three ticks) keeps the simulated velocity nonnegative. -/
theorem C2_no_direction_change_witness :
    (0 < (800 : Int) →
      0 ≤ (runThrottle defaultEsc [-800, -800, -800]
        { simulated_velocity := 800, last_direction := 1,
          throttle_released := false, currently_braking := false
          }).simulated_velocity) ∧
    ((800 : Int) < 0 →
      (runThrottle defaultEsc [-800, -800, -800]
        { simulated_velocity := 800, last_direction := 1,
          throttle_released := false, currently_braking := false
          }).simulated_velocity ≤ 0) :=
  C2_no_direction_change defaultEsc (by decide) [-800, -800, -800]
    (by decide)
    { simulated_velocity := 800, last_direction := 1,
      throttle_released := false, currently_braking := false }
    (by constructor <;> intro hlt <;> first | rfl | (exact absurd hlt (by decide)))

/-- Velocity bound from the spec: `simulated_velocity ∈ [-1000, 1000]`. -/
def VelBnd (s : DynState) : Prop :=
  -1000 ≤ s.simulated_velocity ∧ s.simulated_velocity ≤ 1000

/-- Region from which a constant throttle `t` can make progress: the
velocity already has the sign of `t`, or the vehicle is stopped and the
direction tracker does not point against `t`.  When stopped with the
opposite `last_direction`, the brake-at-stop branch of case 2 fires on
every tick regardless of `throttle_released` (the tracker is only
cleared by a neutral tick while stopped), so the vehicle is locked. -/
def ConvOk (t : Int) (s : DynState) : Prop :=
  (0 < t → 0 < s.simulated_velocity ∨
    (s.simulated_velocity = 0 ∧ s.last_direction ≠ -1)) ∧
  (t < 0 → s.simulated_velocity < 0 ∨
    (s.simulated_velocity = 0 ∧ s.last_direction ≠ 1))

set_option maxHeartbeats 2000000 in
theorem velBnd_mid (esc : EscTuning) (h : ValidEsc esc) (t : Int)
    (ht : -1000 ≤ t ∧ t ≤ 1000) (s : DynState) (hb : VelBnd s) :
    VelBnd (applyRealisticThrottleMid esc t s) := by
  obtain ⟨hc1, hc2⟩ := coastDecel_bounds esc h
  obtain ⟨hb1, hb2⟩ := brakeStrength_bounds esc h
  obtain ⟨ha1, ha2⟩ := accelRate_bounds esc h
  obtain ⟨v, ld, rel, brak⟩ := s
  unfold VelBnd at hb ⊢
  unfold applyRealisticThrottleMid
  set cd := coastDecel esc
  set bs := brakeStrength esc
  set ar := accelRate esc
  clear_value cd bs ar
  dsimp only at hb ⊢
  split_ifs <;> dsimp only <;> omega

theorem velBnd_step (esc : EscTuning) (h : ValidEsc esc) (t : Int)
    (ht : -1000 ≤ t ∧ t ≤ 1000) (s : DynState) (hb : VelBnd s) :
    VelBnd (applyRealisticThrottle esc t s) := by
  have := velBnd_mid esc h t ht s hb
  unfold VelBnd at this ⊢
  rw [step_sv]
  exact this

theorem velBnd_iter (esc : EscTuning) (h : ValidEsc esc) (t : Int)
    (ht : -1000 ≤ t ∧ t ≤ 1000) :
    ∀ (n : Nat) (s : DynState), VelBnd s → VelBnd (iterThrottle esc t n s)
  | 0, s, hb => hb
  | n + 1, s, hb =>
      velBnd_iter esc h t ht n (applyRealisticThrottle esc t s)
        (velBnd_step esc h t ht s hb)

set_option maxHeartbeats 4000000 in
/-- One mid-step from the progress region: the region is preserved, a
velocity already at the target stays there, and otherwise the distance to
the target either reaches 0 or shrinks by at least 5 (the minimum of the
coast, brake and acceleration rates under a valid ESC configuration). -/
theorem conv_mid (esc : EscTuning) (h : ValidEsc esc) (t : Int)
    (ht : -1000 ≤ t ∧ t ≤ 1000) (s : DynState) (hc : ConvOk t s) :
    ConvOk t (applyRealisticThrottleMid esc t s) ∧
    (s.simulated_velocity = t →
      (applyRealisticThrottleMid esc t s).simulated_velocity = t) ∧
    (s.simulated_velocity ≠ t →
      ((applyRealisticThrottleMid esc t s).simulated_velocity = t ∨
       (t - (applyRealisticThrottleMid esc t s).simulated_velocity).natAbs + 5
         ≤ (t - s.simulated_velocity).natAbs)) := by
  obtain ⟨hc1, hc2⟩ := coastDecel_bounds esc h
  obtain ⟨hb1, hb2⟩ := brakeStrength_bounds esc h
  obtain ⟨ha1, ha2⟩ := accelRate_bounds esc h
  obtain ⟨v, ld, rel, brak⟩ := s
  unfold ConvOk at hc ⊢
  unfold applyRealisticThrottleMid
  set cd := coastDecel esc
  set bs := brakeStrength esc
  set ar := accelRate esc
  clear_value cd bs ar
  dsimp only at hc ⊢
  cases rel <;> split_ifs <;> dsimp only <;>
    first
      | omega
      | (simp_all; omega)
      | simp_all

theorem convOk_step_of_mid (esc : EscTuning) (t : Int) (s : DynState)
    (hm : ConvOk t (applyRealisticThrottleMid esc t s)) :
    ConvOk t (applyRealisticThrottle esc t s) := by
  unfold ConvOk at hm ⊢
  rw [step_sv]
  rcases step_ld esc t s with hld | hld <;> rw [hld]
  · constructor
    · intro htpos
      rcases hm.1 htpos with h1 | ⟨h1, _⟩
      · exact Or.inl h1
      · exact Or.inr ⟨h1, by decide⟩
    · intro htneg
      rcases hm.2 htneg with h1 | ⟨h1, _⟩
      · exact Or.inl h1
      · exact Or.inr ⟨h1, by decide⟩
  · exact hm

theorem iterThrottle_add (esc : EscTuning) (t : Int) :
    ∀ (m n : Nat) (s : DynState),
      iterThrottle esc t (m + n) s
        = iterThrottle esc t n (iterThrottle esc t m s)
  | 0, n, s => by rw [Nat.zero_add]; rfl
  | m + 1, n, s => by
      rw [show m + 1 + n = (m + n) + 1 from by omega]
      show iterThrottle esc t (m + n) (applyRealisticThrottle esc t s)
          = iterThrottle esc t n (iterThrottle esc t m (applyRealisticThrottle esc t s))
      exact iterThrottle_add esc t m n (applyRealisticThrottle esc t s)

theorem conv_iter (esc : EscTuning) (h : ValidEsc esc) (t : Int)
    (ht : -1000 ≤ t ∧ t ≤ 1000) :
    ∀ (n : Nat) (s : DynState), ConvOk t s →
      (t - s.simulated_velocity).natAbs ≤ 5 * n →
      (iterThrottle esc t n s).simulated_velocity = t ∧
      ConvOk t (iterThrottle esc t n s) := by
  intro n
  induction n with
  | zero =>
      intro s hc hd
      have hsv : s.simulated_velocity = t := by omega
      exact ⟨hsv, hc⟩
  | succ n ih =>
      intro s hc hd
      have hmid := conv_mid esc h t ht s hc
      have hstep : ConvOk t (applyRealisticThrottle esc t s) :=
        convOk_step_of_mid esc t s hmid.1
      have hsv_step : (applyRealisticThrottle esc t s).simulated_velocity
          = (applyRealisticThrottleMid esc t s).simulated_velocity :=
        step_sv esc t s
      show (iterThrottle esc t n (applyRealisticThrottle esc t s)).simulated_velocity = t ∧
        ConvOk t (iterThrottle esc t n (applyRealisticThrottle esc t s))
      by_cases heq : s.simulated_velocity = t
      · have hz : (applyRealisticThrottle esc t s).simulated_velocity = t := by
          rw [hsv_step]; exact hmid.2.1 heq
        exact ih (applyRealisticThrottle esc t s) hstep (by rw [hz]; simp)
      · rcases hmid.2.2 heq with hz | hdec
        · have hz2 : (applyRealisticThrottle esc t s).simulated_velocity = t := by
            rw [hsv_step]; exact hz
          exact ih (applyRealisticThrottle esc t s) hstep (by rw [hz2]; simp)
        · refine ih (applyRealisticThrottle esc t s) hstep ?_
          rw [hsv_step]
          omega

/-- Sign lock state reached by braking from reverse with forward
throttle: stopped, direction tracker still −1, throttle not released. -/
def lockedDynState : DynState :=
  { simulated_velocity := 0, last_direction := -1, throttle_released := false,
    currently_braking := true }

/-- C1 counterexample: from the reset state, the input sequence
[−100, +100] (one tick of reverse, then forward throttle, default ESC
tuning) reaches `lockedDynState`, and `lockedDynState` is a fixed point
of the tick at constant throttle +100.  The simulated velocity therefore
remains 0 forever and never reaches the held throttle value 100,
refuting convergence from this reachable state. -/
theorem C1_counterexample :
    runThrottle defaultEsc [-100, 100] initialDynState = lockedDynState ∧
    applyRealisticThrottle defaultEsc 100 lockedDynState = lockedDynState ∧
    lockedDynState.simulated_velocity = 0 ∧ (0 : Int) ≠ 100 := by
  refine ⟨by decide, by decide, rfl, by decide⟩

/-- C1 (amended): for every valid ESC configuration and every throttle
input `t ∈ [-1000, 1000]` held constant, starting from any state with
in-range velocity that is not direction-locked against `t` (the
`ConvOk` region; the lock state of `C1_counterexample` is the only kind
of reachable state excluded), the simulated velocity stays within
[-1000, 1000] at every tick and equals `t` from tick 400 on. -/
theorem C1_convergence (esc : EscTuning) (h : ValidEsc esc) (t : Int)
    (ht : -1000 ≤ t ∧ t ≤ 1000) (s : DynState) (hb : VelBnd s)
    (hc : ConvOk t s) :
    (∀ n, -1000 ≤ (iterThrottle esc t n s).simulated_velocity ∧
      (iterThrottle esc t n s).simulated_velocity ≤ 1000) ∧
    (∀ k, (iterThrottle esc t (400 + k) s).simulated_velocity = t) := by
  constructor
  · intro n
    exact velBnd_iter esc h t ht n s hb
  · intro k
    have h400 := conv_iter esc h t ht 400 s hc (by unfold VelBnd at hb; omega)
    rw [iterThrottle_add]
    exact (conv_iter esc h t ht k (iterThrottle esc t 400 s) h400.2
      (by rw [h400.1]; simp)).1

/-- C1 witness: convergence and boundedness at the default ESC tuning,
constant throttle 300, from the reset state. -/
theorem C1_convergence_witness :
    (∀ n, -1000 ≤ (iterThrottle defaultEsc 300 n initialDynState).simulated_velocity ∧
      (iterThrottle defaultEsc 300 n initialDynState).simulated_velocity ≤ 1000) ∧
    (∀ k, (iterThrottle defaultEsc 300 (400 + k) initialDynState).simulated_velocity
      = 300) :=
  C1_convergence defaultEsc (by decide) 300 (by decide) initialDynState
    (by unfold VelBnd; exact ⟨by decide, by decide⟩)
    (by constructor <;> intro <;> exact Or.inr ⟨rfl, by decide⟩)

/-! ### Audio mixer sample reads (engine_sound.c lines 246–303, 361–391,
426–684, 944–965) -/

/-- A single sample-array read performed by the mixer: the integer index
used and the `sample_count` bound of the array being read. -/
structure SampleRead where
  idx : Nat
  count : Nat
deriving DecidableEq

/-- Reduction modulo 2^32, the effect of `uint32_t` cursor arithmetic. -/
def wrap32 (n : Nat) : Nat := n % 4294967296

/-- `calc_sample_increment` (engine_sound.c lines 312–318):
`((uint32_t)rpm << 16) / IDLE_RPM` with `IDLE_RPM = 100`; the shift of a
`uint16_t` RPM cannot overflow 32 bits. -/
def calcSampleIncrement (rpm : Nat) : Nat := rpm * 65536 / 100

/-- Sample counts and capability flags of the active profile used by the
mixer.  `shiftingCount`/`wastegateCount` are `none` when the profile's
sample pointer is NULL (the mixer then falls back to the generic effect
arrays). -/
structure MixProfile where
  idleCount : Nat
  revCount : Nat
  knockCount : Nat
  jakeCount : Nat
  hasJake : Bool
  shiftingCount : Option Nat
  wastegateCount : Option Nat
deriving DecidableEq

/-- Sample counts of the generic effect arrays and the selected horn
(the `switch (config.horn_type)` blocks pick one of seven sample sets;
its count and loop bounds are abstracted as the three horn fields; the
data headers live outside the verified sources). -/
structure EffectCounts where
  airCount : Nat
  beepCount : Nat
  gearCount : Nat
  wgCount : Nat
  modeCount : Nat
  hornCount : Nat
  hornLoopBegin : Nat
  hornLoopEnd : Nat
deriving DecidableEq

/-- Configuration flags read by the mixer. -/
structure MixCfg where
  airEnabled : Bool
  beepEnabled : Bool
  gearEnabled : Bool
  wgEnabled : Bool
  modeEnabled : Bool
  hornEnabled : Bool
  knockStartPoint : Nat
  knockInterval : Nat
  jakeBrakeActive : Bool
deriving DecidableEq

/-- Mutable cursor/trigger state touched by one mixer iteration. -/
structure MixState where
  idlePos : Nat
  revPos : Nat
  knockPos : Nat
  jakePos : Nat
  lastKnockPos : Nat
  knockCounter : Nat
  airTrigger : Bool
  airPos : Nat
  beepPlaying : Bool
  beepPos : Nat
  gearTrigger : Bool
  gearPos : Nat
  wgTrigger : Bool
  wgPos : Nat
  modeTrigger : Bool
  modePos : Nat
  hornActive : Bool
  hornPos : Nat
deriving DecidableEq

/-- `get_idle_sample` (engine_sound.c lines 246–254): looping read; if the
integer index has run past the end, the cursor is reset to 0 and index 0
is read. -/
def getIdleSample (count pos : Nat) : SampleRead × Nat :=
  let idx := pos / 65536
  if count ≤ idx then ({ idx := 0, count := count }, 0)
  else ({ idx := idx, count := count }, pos)

/-- `get_rev_sample` (engine_sound.c lines 259–266), same shape as the
idle read. -/
def getRevSample (count pos : Nat) : SampleRead × Nat :=
  let idx := pos / 65536
  if count ≤ idx then ({ idx := 0, count := count }, 0)
  else ({ idx := idx, count := count }, pos)

/-- `get_knock_sample` (engine_sound.c lines 271–277): one-shot; past the
end it returns silence without reading. -/
def getKnockSample (count pos : Nat) : Option SampleRead :=
  let idx := pos / 65536
  if count ≤ idx then none else some { idx := idx, count := count }

/-- `get_jake_sample` (engine_sound.c lines 282–292): silent without the
capability, looping read otherwise. -/
def getJakeSample (hasJake : Bool) (count pos : Nat) : Option SampleRead × Nat :=
  if hasJake = false then (none, pos)
  else
    let idx := pos / 65536
    if count ≤ idx then (some { idx := 0, count := count }, 0)
    else (some { idx := idx, count := count }, pos)

/-- Looping-cursor advance used for the idle/rev/jake layers
(engine_sound.c lines 465–474 and 503–506): add the increment, and if the
integer index has reached the end wrap the cursor to 0 (flag returned so
the idle wrap can also reset the knock tracking). -/
def advanceLoop (count pos inc : Nat) : Nat × Bool :=
  let p := wrap32 (pos + inc)
  if count ≤ p / 65536 then (0, true) else (p, false)

/-- `should_trigger_knock` (engine_sound.c lines 371–391).  Returns the
trigger decision and the new `last_knock_pos`/`knock_counter`. -/
def shouldTriggerKnock (knockStart knockInterval idleCount rpm idlePos
    lastKnockPos knockCounter : Nat) : Bool × Nat × Nat :=
  if rpm < knockStart then (false, lastKnockPos, knockCounter)
  else
    let idleIdx := idlePos / 65536
    let interval := idleCount / knockInterval
    if idleIdx / interval ≠ lastKnockPos / interval then
      (true, idleIdx, knockCounter + 1)
    else (false, lastKnockPos, knockCounter)

/-- One-shot effect channel step (air brake lines 514–525, gear shift
542–565, wastegate 569–594, mode switch 597–608): read only below the
bound, advance at native rate, self-clear past the end. -/
def oneShotStep (trigger enabled : Bool) (count pos : Nat) :
    Option SampleRead × Bool × Nat :=
  if trigger = true ∧ enabled = true then
    let idx := pos / 65536
    if idx < count then (some { idx := idx, count := count }, true, wrap32 (pos + 65536))
    else (none, false, 0)
  else (none, trigger, pos)

/-- Reverse-beep channel step (engine_sound.c lines 528–538): as the
one-shot channels but wrapping to the start instead of self-clearing. -/
def beepStep (playing enabled : Bool) (count pos : Nat) :
    Option SampleRead × Nat :=
  if playing = true ∧ enabled = true then
    let idx := pos / 65536
    if idx < count then (some { idx := idx, count := count }, wrap32 (pos + 65536))
    else (none, 0)
  else (none, pos)

/-- Horn channel step (engine_sound.c lines 611–674): read only below the
bound; after advancing, wrap back to the loop-begin position once the
loop-end index is reached. -/
def hornStep (active enabled : Bool) (count loopBegin loopEnd pos : Nat) :
    Option SampleRead × Nat :=
  if active = true ∧ enabled = true then
    let idx := pos / 65536
    if idx < count then
      let p1 := wrap32 (pos + 65536)
      let p2 := if loopEnd ≤ p1 / 65536 then wrap32 (loopBegin * 65536) else p1
      (some { idx := idx, count := count }, p2)
    else (none, pos)
  else (none, pos)

/-- Gear-shift sample count after the profile-based fallback
(engine_sound.c lines 546–553). -/
def gearShiftCount (prof : MixProfile) (eff : EffectCounts) : Nat :=
  match prof.shiftingCount with
  | some c => c
  | none => eff.gearCount

/-- Wastegate sample count after the profile-based fallback
(engine_sound.c lines 573–580). -/
def wastegateEffCount (prof : MixProfile) (eff : EffectCounts) : Nat :=
  match prof.wastegateCount with
  | some c => c
  | none => eff.wgCount

/-- One iteration of the `mix_engine_samples` loop body
(engine_sound.c lines 453–683): the reads performed (in program order:
idle, rev, knock, jake, air brake, reverse beep, gear shift, wastegate,
mode switch, horn) together with the updated cursor/trigger state. -/
def mixOneSample (cfg : MixCfg) (prof : MixProfile) (eff : EffectCounts)
    (rpm : Nat) (st : MixState) : List SampleRead × MixState :=
  let inc := calcSampleIncrement rpm
  let gi := getIdleSample prof.idleCount st.idlePos
  let gr := getRevSample prof.revCount st.revPos
  let ia := advanceLoop prof.idleCount gi.2 inc
  let lastKnock1 := if ia.2 = true then 0 else st.lastKnockPos
  let ra := advanceLoop prof.revCount gr.2 inc
  let kt := shouldTriggerKnock cfg.knockStartPoint cfg.knockInterval
    prof.idleCount rpm ia.1 lastKnock1 st.knockCounter
  let knockPos1 := if kt.1 = true then 0 else st.knockPos
  let kres : Option SampleRead × Nat :=
    if knockPos1 / 65536 < prof.knockCount then
      (getKnockSample prof.knockCount knockPos1, wrap32 (knockPos1 + 65536))
    else (none, knockPos1)
  let jres : Option SampleRead × Nat :=
    if cfg.jakeBrakeActive = true ∧ 150 < rpm ∧ prof.hasJake = true then
      let gj := getJakeSample prof.hasJake prof.jakeCount st.jakePos
      let ja := advanceLoop prof.jakeCount gj.2 inc
      (gj.1, ja.1)
    else (none, st.jakePos)
  let ares := oneShotStep st.airTrigger cfg.airEnabled eff.airCount st.airPos
  let bres := beepStep st.beepPlaying cfg.beepEnabled eff.beepCount st.beepPos
  let gres := oneShotStep st.gearTrigger cfg.gearEnabled
    (gearShiftCount prof eff) st.gearPos
  let wres := oneShotStep st.wgTrigger cfg.wgEnabled
    (wastegateEffCount prof eff) st.wgPos
  let mres := oneShotStep st.modeTrigger cfg.modeEnabled eff.modeCount st.modePos
  let hres := hornStep st.hornActive cfg.hornEnabled eff.hornCount
    eff.hornLoopBegin eff.hornLoopEnd st.hornPos
  (gi.1 :: gr.1 :: (kres.1.toList ++ (jres.1.toList ++ (ares.1.toList
      ++ (bres.1.toList ++ (gres.1.toList ++ (wres.1.toList
      ++ (mres.1.toList ++ hres.1.toList))))))),
   { idlePos := ia.1, revPos := ra.1, knockPos := kres.2, jakePos := jres.2,
     lastKnockPos := kt.2.1, knockCounter := kt.2.2,
     airTrigger := ares.2.1, airPos := ares.2.2,
     beepPlaying := st.beepPlaying, beepPos := bres.2,
     gearTrigger := gres.2.1, gearPos := gres.2.2,
     wgTrigger := wres.2.1, wgPos := wres.2.2,
     modeTrigger := mres.2.1, modePos := mres.2.2,
     hornActive := st.hornActive, hornPos := hres.2 })

/-- One full audio buffer: `num_samples` iterations of the mixer loop
(engine_sound.c line 453), collecting every read performed. -/
def mixBuffer (cfg : MixCfg) (prof : MixProfile) (eff : EffectCounts)
    (rpm : Nat) : Nat → MixState → List SampleRead × MixState
  | 0, st => ([], st)
  | n + 1, st =>
      let one := mixOneSample cfg prof eff rpm st
      let rest := mixBuffer cfg prof eff rpm n one.2
      (one.1 ++ rest.1, rest.2)

/-- One iteration of the horn-only loop run by `engine_sound_task` while
the engine is off (engine_sound.c lines 946–959). -/
def hornOnlySample (eff : EffectCounts) (pos : Nat) : Option SampleRead × Nat :=
  let idx := pos / 65536
  if idx < eff.hornCount then
    let p1 := wrap32 (pos + 65536)
    let p2 := if eff.hornLoopEnd ≤ p1 / 65536 then wrap32 (eff.hornLoopBegin * 65536)
      else p1
    (some { idx := idx, count := eff.hornCount }, p2)
  else (none, pos)

/-- One horn-only buffer (engine_sound.c line 946 loop). -/
def hornOnlyBuffer (eff : EffectCounts) : Nat → Nat → List SampleRead × Nat
  | 0, pos => ([], pos)
  | n + 1, pos =>
      let one := hornOnlySample eff pos
      let rest := hornOnlyBuffer eff n one.2
      (one.1.toList ++ rest.1, rest.2)

theorem getIdleSample_lt (count pos : Nat) (h : 0 < count) :
    (getIdleSample count pos).1.idx < (getIdleSample count pos).1.count := by
  unfold getIdleSample
  dsimp only
  split_ifs <;> dsimp only <;> omega

theorem getRevSample_lt (count pos : Nat) (h : 0 < count) :
    (getRevSample count pos).1.idx < (getRevSample count pos).1.count := by
  unfold getRevSample
  dsimp only
  split_ifs <;> dsimp only <;> omega

theorem getKnockSample_lt (count pos : Nat) (r : SampleRead)
    (h : getKnockSample count pos = some r) : r.idx < r.count := by
  unfold getKnockSample at h
  dsimp only at h
  split_ifs at h with hc
  all_goals first
    | exact Option.noConfusion h
    | (cases h; dsimp only; omega)

theorem getJakeSample_lt (hasJake : Bool) (count pos : Nat) (h : 0 < count)
    (r : SampleRead) (hr : (getJakeSample hasJake count pos).1 = some r) :
    r.idx < r.count := by
  unfold getJakeSample at hr
  dsimp only at hr
  split_ifs at hr <;> dsimp only at hr
  all_goals first
    | exact Option.noConfusion hr
    | (cases hr; dsimp only; omega)

theorem oneShotStep_lt (trigger enabled : Bool) (count pos : Nat)
    (r : SampleRead) (hr : (oneShotStep trigger enabled count pos).1 = some r) :
    r.idx < r.count := by
  unfold oneShotStep at hr
  dsimp only at hr
  split_ifs at hr <;> dsimp only at hr
  all_goals first
    | exact Option.noConfusion hr
    | (cases hr; dsimp only; omega)

theorem beepStep_lt (playing enabled : Bool) (count pos : Nat)
    (r : SampleRead) (hr : (beepStep playing enabled count pos).1 = some r) :
    r.idx < r.count := by
  unfold beepStep at hr
  dsimp only at hr
  split_ifs at hr <;> dsimp only at hr
  all_goals first
    | exact Option.noConfusion hr
    | (cases hr; dsimp only; omega)

theorem hornStep_lt (active enabled : Bool) (count loopBegin loopEnd pos : Nat)
    (r : SampleRead)
    (hr : (hornStep active enabled count loopBegin loopEnd pos).1 = some r) :
    r.idx < r.count := by
  unfold hornStep at hr
  dsimp only at hr
  split_ifs at hr <;> dsimp only at hr
  all_goals first
    | exact Option.noConfusion hr
    | (cases hr; dsimp only; omega)

theorem hornOnlySample_lt (eff : EffectCounts) (pos : Nat) (r : SampleRead)
    (hr : (hornOnlySample eff pos).1 = some r) : r.idx < r.count := by
  unfold hornOnlySample at hr
  dsimp only at hr
  split_ifs at hr <;> dsimp only at hr
  all_goals first
    | exact Option.noConfusion hr
    | (cases hr; dsimp only; omega)

theorem mixOneSample_reads (cfg : MixCfg) (prof : MixProfile)
    (eff : EffectCounts) (rpm : Nat) (st : MixState)
    (hidle : 0 < prof.idleCount) (hrev : 0 < prof.revCount)
    (hjake : prof.hasJake = true → 0 < prof.jakeCount) :
    ∀ r ∈ (mixOneSample cfg prof eff rpm st).1, r.idx < r.count := by
  intro r hr
  unfold mixOneSample at hr
  dsimp only at hr
  simp only [List.mem_cons, List.mem_append, List.not_mem_nil, or_false,
    Option.mem_toList, Option.mem_def] at hr
  rcases hr with h | h | h | h | h | h | h | h | h | h
  · subst h
    exact getIdleSample_lt _ _ hidle
  · subst h
    exact getRevSample_lt _ _ hrev
  · -- knock layer
    by_cases hk : (if (shouldTriggerKnock cfg.knockStartPoint cfg.knockInterval
        prof.idleCount rpm (advanceLoop prof.idleCount
          (getIdleSample prof.idleCount st.idlePos).2 (calcSampleIncrement rpm)).1
        (if (advanceLoop prof.idleCount (getIdleSample prof.idleCount st.idlePos).2
          (calcSampleIncrement rpm)).2 = true then 0 else st.lastKnockPos)
        st.knockCounter).1 = true then 0 else st.knockPos) / 65536 < prof.knockCount
    · rw [if_pos hk] at h
      exact getKnockSample_lt _ _ r h
    · rw [if_neg hk] at h
      exact Option.noConfusion h
  · -- jake layer
    by_cases hj : cfg.jakeBrakeActive = true ∧ 150 < rpm ∧ prof.hasJake = true
    · rw [if_pos hj] at h
      exact getJakeSample_lt _ _ _ (hjake hj.2.2) r h
    · rw [if_neg hj] at h
      exact Option.noConfusion h
  · exact oneShotStep_lt _ _ _ _ r h
  · exact beepStep_lt _ _ _ _ r h
  · exact oneShotStep_lt _ _ _ _ r h
  · exact oneShotStep_lt _ _ _ _ r h
  · exact oneShotStep_lt _ _ _ _ r h
  · exact hornStep_lt _ _ _ _ _ _ r h

theorem mixBuffer_reads (cfg : MixCfg) (prof : MixProfile)
    (eff : EffectCounts) (rpm : Nat)
    (hidle : 0 < prof.idleCount) (hrev : 0 < prof.revCount)
    (hjake : prof.hasJake = true → 0 < prof.jakeCount) :
    ∀ (n : Nat) (st : MixState),
      ∀ r ∈ (mixBuffer cfg prof eff rpm n st).1, r.idx < r.count := by
  intro n
  induction n with
  | zero =>
      intro st r hr
      exact absurd hr (List.not_mem_nil r)
  | succ n ih =>
      intro st r hr
      rw [show mixBuffer cfg prof eff rpm (n + 1) st
          = ((mixOneSample cfg prof eff rpm st).1
              ++ (mixBuffer cfg prof eff rpm n (mixOneSample cfg prof eff rpm st).2).1,
             (mixBuffer cfg prof eff rpm n (mixOneSample cfg prof eff rpm st).2).2)
        from rfl] at hr
      rcases List.mem_append.mp hr with h | h
      · exact mixOneSample_reads cfg prof eff rpm st hidle hrev hjake r h
      · exact ih (mixOneSample cfg prof eff rpm st).2 r h

theorem hornOnlyBuffer_reads (eff : EffectCounts) :
    ∀ (n : Nat) (pos : Nat),
      ∀ r ∈ (hornOnlyBuffer eff n pos).1, r.idx < r.count := by
  intro n
  induction n with
  | zero =>
      intro pos r hr
      exact absurd hr (List.not_mem_nil r)
  | succ n ih =>
      intro pos r hr
      rw [show hornOnlyBuffer eff (n + 1) pos
          = ((hornOnlySample eff pos).1.toList
              ++ (hornOnlyBuffer eff n (hornOnlySample eff pos).2).1,
             (hornOnlyBuffer eff n (hornOnlySample eff pos).2).2)
        from rfl] at hr
      rcases List.mem_append.mp hr with h | h
      · simp only [Option.mem_toList, Option.mem_def] at h
        exact hornOnlySample_lt eff pos r h
      · exact ih (hornOnlySample eff pos).2 r h

/-- C10: for every cursor state, RPM, configuration and profile whose
looping sounds have nonzero sample counts (idle, rev, and jake brake when
the profile has one; every other layer's read is guarded by its own bound
check, so no hypothesis is needed for it), every sample-array read
performed while mixing one audio buffer — idle, rev, knock, jake brake,
air brake, reverse beep, gear shift, wastegate, mode switch and horn
layers, and likewise the engine-off horn-only path of the audio task —
uses an index strictly below that sound's `sample_count`: looping cursors
wrap (to 0, or to the horn's loop-begin position) before the next read,
and one-shot cursors past the end yield silence instead of a read. -/
theorem C10_mixer_reads_in_bounds (cfg : MixCfg) (prof : MixProfile)
    (eff : EffectCounts) (rpm : Nat) (n : Nat) (st : MixState) (pos : Nat)
    (hidle : 0 < prof.idleCount) (hrev : 0 < prof.revCount)
    (hjake : prof.hasJake = true → 0 < prof.jakeCount) :
    (∀ r ∈ (mixBuffer cfg prof eff rpm n st).1, r.idx < r.count) ∧
    (∀ r ∈ (hornOnlyBuffer eff n pos).1, r.idx < r.count) :=
  ⟨mixBuffer_reads cfg prof eff rpm hidle hrev hjake n st,
   hornOnlyBuffer_reads eff n pos⟩

/-- Profile shaped like URAL 4320 loaded with small sample counts; the
concrete numbers are irrelevant to the property. -/
def sampleMixProfile : MixProfile :=
  { idleCount := 11025, revCount := 8820, knockCount := 600, jakeCount := 4410,
    hasJake := true, shiftingCount := none, wastegateCount := none }

/-- Effect counts used by the C10 witness. -/
def sampleEffectCounts : EffectCounts :=
  { airCount := 3000, beepCount := 2000, gearCount := 1500, wgCount := 2500,
    modeCount := 1200, hornCount := 9000, hornLoopBegin := 1000,
    hornLoopEnd := 8000 }

/-- Mixer configuration used by the C10 witness: everything enabled. -/
def sampleMixCfg : MixCfg :=
  { airEnabled := true, beepEnabled := true, gearEnabled := true,
    wgEnabled := true, modeEnabled := true, hornEnabled := true,
    knockStartPoint := 150, knockInterval := 8, jakeBrakeActive := true }

/-- Cursor state used by the C10 witness: cursors deliberately past the
ends of their buffers. -/
def sampleMixState : MixState :=
  { idlePos := 11025 * 65536 + 12345, revPos := 8820 * 65536 + 99,
    knockPos := 600 * 65536, jakePos := 4410 * 65536 + 7,
    lastKnockPos := 3, knockCounter := 9,
    airTrigger := true, airPos := 3000 * 65536 + 1,
    beepPlaying := true, beepPos := 2000 * 65536 + 1,
    gearTrigger := true, gearPos := 1500 * 65536 + 1,
    wgTrigger := true, wgPos := 2500 * 65536 + 1,
    modeTrigger := true, modePos := 1200 * 65536 + 1,
    hornActive := true, hornPos := 9000 * 65536 + 1 }

/-- C10 witness: the bound statement instantiated on a two-sample buffer
at RPM 300 from a cursor state past every buffer end. -/
theorem C10_mixer_reads_in_bounds_witness :
    (∀ r ∈ (mixBuffer sampleMixCfg sampleMixProfile sampleEffectCounts
        300 2 sampleMixState).1, r.idx < r.count) ∧
    (∀ r ∈ (hornOnlyBuffer sampleEffectCounts 2 (9000 * 65536 + 1)).1,
      r.idx < r.count) :=
  C10_mixer_reads_in_bounds sampleMixCfg sampleMixProfile sampleEffectCounts
    300 2 sampleMixState (9000 * 65536 + 1) (by decide) (by decide)
    (fun _ => by decide)

end Crawler
